import Mathlib

/-!
Verification of the light-attitude state machine of `cgilluminate`
(`src/lib.rs`), shallowly embedded over the real numbers.

The crate computes with a generic IEEE-like scalar `S: ScalarFloat`; the
embedding idealises that scalar as `ℝ`.  The linear-algebra layer comes from
the external `cglinalg` crate, which is not part of this repository; its
operations used here (vector/quaternion arithmetic, the quaternion-to-matrix
conversion, affine translation matrices and general 4x4 matrix inversion with
a `None` result exactly on a vanishing determinant) are modelled from their
mathematical contract as the specification describes them: the
quaternion-to-matrix conversion yields the rotation matrix of the quaternion
(the conjugation action `v ↦ q v q⁻¹`, well defined for every nonzero
quaternion), and matrix inversion is the adjugate divided by the determinant.
Division by zero follows Lean's `x / 0 = 0` convention, so the model is
faithful to the floating-point code only away from those singular inputs; the
claims' preconditions keep all inputs away from them.
-/

namespace Cgi

/-- A 3-component real vector (`cglinalg::Vector3`). -/
structure Vector3 where
  x : ℝ
  y : ℝ
  z : ℝ


/-- A 4-component real vector (`cglinalg::Vector4`). -/
structure Vector4 where
  x : ℝ
  y : ℝ
  z : ℝ
  w : ℝ


namespace Vector3

noncomputable instance : Add Vector3 :=
  ⟨fun a b => ⟨a.x + b.x, a.y + b.y, a.z + b.z⟩⟩

noncomputable instance : Neg Vector3 :=
  ⟨fun a => ⟨-a.x, -a.y, -a.z⟩⟩

noncomputable instance : SMul ℝ Vector3 :=
  ⟨fun c a => ⟨c * a.x, c * a.y, c * a.z⟩⟩

/-- `Vector3::zero`. -/
def zero : Vector3 := ⟨0, 0, 0⟩

/-- The Euclidean dot product of two 3-vectors. -/
noncomputable def dot (a b : Vector3) : ℝ := a.x * b.x + a.y * b.y + a.z * b.z

/-- The cross product of two 3-vectors. -/
noncomputable def cross (a b : Vector3) : Vector3 :=
  ⟨a.y * b.z - a.z * b.y, a.z * b.x - a.x * b.z, a.x * b.y - a.y * b.x⟩

/-- `Vector3::to_homogeneous`: extend with a `w = 0` component. -/
def to_homogeneous (a : Vector3) : Vector4 := ⟨a.x, a.y, a.z, 0⟩

/-- `Unit::from_value`: normalize a vector to unit length
(`v / ‖v‖`; for `v = 0` the model yields `0` where the float code yields NaN). -/
noncomputable def unit_from_value (a : Vector3) : Vector3 :=
  (1 / Real.sqrt (dot a a)) • a

@[simp] theorem add_def (a b : Vector3) :
    a + b = ⟨a.x + b.x, a.y + b.y, a.z + b.z⟩ := rfl

@[simp] theorem neg_def (a : Vector3) : -a = ⟨-a.x, -a.y, -a.z⟩ := rfl

@[simp] theorem smul_def (c : ℝ) (a : Vector3) :
    c • a = ⟨c * a.x, c * a.y, c * a.z⟩ := rfl

end Vector3

namespace Vector4

/-- `Vector4::contract`: drop the `w` component. -/
def contract (a : Vector4) : Vector3 := ⟨a.x, a.y, a.z⟩

end Vector4

/-- A real quaternion with scalar part `s` and vector part `v`
(`cglinalg::Quaternion`). -/
structure Quaternion where
  s : ℝ
  v : Vector3


namespace Quaternion

/-- `Quaternion::from_parts`. -/
def from_parts (s : ℝ) (v : Vector3) : Quaternion := ⟨s, v⟩

/-- The Hamilton product of two quaternions. -/
noncomputable def mul (p q : Quaternion) : Quaternion :=
  ⟨p.s * q.s - Vector3.dot p.v q.v,
   p.s • q.v + q.s • p.v + Vector3.cross p.v q.v⟩

noncomputable instance : Mul Quaternion := ⟨mul⟩

@[simp] theorem quat_mul_def (p q : Quaternion) :
    p * q = ⟨p.s * q.s - Vector3.dot p.v q.v,
      p.s • q.v + q.s • p.v + Vector3.cross p.v q.v⟩ := rfl

/-- The squared norm of a quaternion. -/
noncomputable def normSq (q : Quaternion) : ℝ := q.s ^ 2 + Vector3.dot q.v q.v

/-- `Quaternion::from_axis_angle`: the half-angle formula, taking the rotation
axis as (already normalized) unit vector. -/
noncomputable def from_axis_angle (axis : Vector3) (angle : ℝ) : Quaternion :=
  ⟨Real.cos (angle / 2), Real.sin (angle / 2) • axis⟩

end Quaternion

/-- A 4x4 real matrix in column-major storage like `cglinalg::Matrix4x4`:
`cIrJ` is the entry in column `I`, row `J`. -/
structure Matrix4x4 where
  c0r0 : ℝ
  c0r1 : ℝ
  c0r2 : ℝ
  c0r3 : ℝ
  c1r0 : ℝ
  c1r1 : ℝ
  c1r2 : ℝ
  c1r3 : ℝ
  c2r0 : ℝ
  c2r1 : ℝ
  c2r2 : ℝ
  c2r3 : ℝ
  c3r0 : ℝ
  c3r1 : ℝ
  c3r2 : ℝ
  c3r3 : ℝ


namespace Matrix4x4

/-- Matrix product: `(a * b)` has entry `row r, col c` equal to
`∑ k, a[r][k] * b[k][c]`. -/
noncomputable def matMul (a b : Matrix4x4) : Matrix4x4 :=
  ⟨a.c0r0 * b.c0r0 + a.c1r0 * b.c0r1 + a.c2r0 * b.c0r2 + a.c3r0 * b.c0r3,
   a.c0r1 * b.c0r0 + a.c1r1 * b.c0r1 + a.c2r1 * b.c0r2 + a.c3r1 * b.c0r3,
   a.c0r2 * b.c0r0 + a.c1r2 * b.c0r1 + a.c2r2 * b.c0r2 + a.c3r2 * b.c0r3,
   a.c0r3 * b.c0r0 + a.c1r3 * b.c0r1 + a.c2r3 * b.c0r2 + a.c3r3 * b.c0r3,
   a.c0r0 * b.c1r0 + a.c1r0 * b.c1r1 + a.c2r0 * b.c1r2 + a.c3r0 * b.c1r3,
   a.c0r1 * b.c1r0 + a.c1r1 * b.c1r1 + a.c2r1 * b.c1r2 + a.c3r1 * b.c1r3,
   a.c0r2 * b.c1r0 + a.c1r2 * b.c1r1 + a.c2r2 * b.c1r2 + a.c3r2 * b.c1r3,
   a.c0r3 * b.c1r0 + a.c1r3 * b.c1r1 + a.c2r3 * b.c1r2 + a.c3r3 * b.c1r3,
   a.c0r0 * b.c2r0 + a.c1r0 * b.c2r1 + a.c2r0 * b.c2r2 + a.c3r0 * b.c2r3,
   a.c0r1 * b.c2r0 + a.c1r1 * b.c2r1 + a.c2r1 * b.c2r2 + a.c3r1 * b.c2r3,
   a.c0r2 * b.c2r0 + a.c1r2 * b.c2r1 + a.c2r2 * b.c2r2 + a.c3r2 * b.c2r3,
   a.c0r3 * b.c2r0 + a.c1r3 * b.c2r1 + a.c2r3 * b.c2r2 + a.c3r3 * b.c2r3,
   a.c0r0 * b.c3r0 + a.c1r0 * b.c3r1 + a.c2r0 * b.c3r2 + a.c3r0 * b.c3r3,
   a.c0r1 * b.c3r0 + a.c1r1 * b.c3r1 + a.c2r1 * b.c3r2 + a.c3r1 * b.c3r3,
   a.c0r2 * b.c3r0 + a.c1r2 * b.c3r1 + a.c2r2 * b.c3r2 + a.c3r2 * b.c3r3,
   a.c0r3 * b.c3r0 + a.c1r3 * b.c3r1 + a.c2r3 * b.c3r2 + a.c3r3 * b.c3r3⟩

noncomputable instance : Mul Matrix4x4 := ⟨matMul⟩

@[simp] theorem mat_mul_def (a b : Matrix4x4) : a * b = matMul a b := rfl

/-- Matrix-vector product. -/
noncomputable def mulVec (m : Matrix4x4) (v : Vector4) : Vector4 :=
  ⟨m.c0r0 * v.x + m.c1r0 * v.y + m.c2r0 * v.z + m.c3r0 * v.w,
   m.c0r1 * v.x + m.c1r1 * v.y + m.c2r1 * v.z + m.c3r1 * v.w,
   m.c0r2 * v.x + m.c1r2 * v.y + m.c2r2 * v.z + m.c3r2 * v.w,
   m.c0r3 * v.x + m.c1r3 * v.y + m.c2r3 * v.z + m.c3r3 * v.w⟩

/-- `Matrix4x4::from_affine_translation`: identity with translation column. -/
def from_affine_translation (p : Vector3) : Matrix4x4 :=
  ⟨1, 0, 0, 0,
   0, 1, 0, 0,
   0, 0, 1, 0,
   p.x, p.y, p.z, 1⟩

/-- `Matrix4x4::from(&Quaternion)`, modelled from the spec: the affine
rotation matrix of the quaternion's conjugation action `v ↦ q v q⁻¹`
(a proper rotation for every nonzero quaternion). -/
noncomputable def from_quaternion (q : Quaternion) : Matrix4x4 :=
  let n := Quaternion.normSq q
  let k := 2 / n
  let w := q.s
  let x := q.v.x
  let y := q.v.y
  let z := q.v.z
  ⟨1 - k * (y ^ 2 + z ^ 2), k * (x * y + w * z), k * (x * z - w * y), 0,
   k * (x * y - w * z), 1 - k * (x ^ 2 + z ^ 2), k * (y * z + w * x), 0,
   k * (x * z + w * y), k * (y * z - w * x), 1 - k * (x ^ 2 + y ^ 2), 0,
   0, 0, 0, 1⟩

/-- Determinant of a 3x3 matrix given row by row. -/
noncomputable def det3 (a b c d e f g h i : ℝ) : ℝ :=
  a * (e * i - f * h) - b * (d * i - f * g) + c * (d * h - e * g)

/-- Determinant of a 4x4 matrix, by cofactor expansion along the first row. -/
noncomputable def det (m : Matrix4x4) : ℝ :=
  m.c0r0 * det3 m.c1r1 m.c2r1 m.c3r1 m.c1r2 m.c2r2 m.c3r2 m.c1r3 m.c2r3 m.c3r3
    - m.c1r0 * det3 m.c0r1 m.c2r1 m.c3r1 m.c0r2 m.c2r2 m.c3r2 m.c0r3 m.c2r3 m.c3r3
    + m.c2r0 * det3 m.c0r1 m.c1r1 m.c3r1 m.c0r2 m.c1r2 m.c3r2 m.c0r3 m.c1r3 m.c3r3
    - m.c3r0 * det3 m.c0r1 m.c1r1 m.c2r1 m.c0r2 m.c1r2 m.c2r2 m.c0r3 m.c1r3 m.c2r3

/-- `Matrix4x4::inverse`: `None` exactly when the determinant vanishes,
otherwise the adjugate divided by the determinant. -/
noncomputable def inverse (m : Matrix4x4) : Option Matrix4x4 :=
  if det m = 0 then none else
    some
      ⟨(1 / det m) * det3 m.c1r1 m.c2r1 m.c3r1 m.c1r2 m.c2r2 m.c3r2 m.c1r3 m.c2r3 m.c3r3,
       -((1 / det m) * det3 m.c0r1 m.c2r1 m.c3r1 m.c0r2 m.c2r2 m.c3r2 m.c0r3 m.c2r3 m.c3r3),
       (1 / det m) * det3 m.c0r1 m.c1r1 m.c3r1 m.c0r2 m.c1r2 m.c3r2 m.c0r3 m.c1r3 m.c3r3,
       -((1 / det m) * det3 m.c0r1 m.c1r1 m.c2r1 m.c0r2 m.c1r2 m.c2r2 m.c0r3 m.c1r3 m.c2r3),
       -((1 / det m) * det3 m.c1r0 m.c2r0 m.c3r0 m.c1r2 m.c2r2 m.c3r2 m.c1r3 m.c2r3 m.c3r3),
       (1 / det m) * det3 m.c0r0 m.c2r0 m.c3r0 m.c0r2 m.c2r2 m.c3r2 m.c0r3 m.c2r3 m.c3r3,
       -((1 / det m) * det3 m.c0r0 m.c1r0 m.c3r0 m.c0r2 m.c1r2 m.c3r2 m.c0r3 m.c1r3 m.c3r3),
       (1 / det m) * det3 m.c0r0 m.c1r0 m.c2r0 m.c0r2 m.c1r2 m.c2r2 m.c0r3 m.c1r3 m.c2r3,
       (1 / det m) * det3 m.c1r0 m.c2r0 m.c3r0 m.c1r1 m.c2r1 m.c3r1 m.c1r3 m.c2r3 m.c3r3,
       -((1 / det m) * det3 m.c0r0 m.c2r0 m.c3r0 m.c0r1 m.c2r1 m.c3r1 m.c0r3 m.c2r3 m.c3r3),
       (1 / det m) * det3 m.c0r0 m.c1r0 m.c3r0 m.c0r1 m.c1r1 m.c3r1 m.c0r3 m.c1r3 m.c3r3,
       -((1 / det m) * det3 m.c0r0 m.c1r0 m.c2r0 m.c0r1 m.c1r1 m.c2r1 m.c0r3 m.c1r3 m.c2r3),
       -((1 / det m) * det3 m.c1r0 m.c2r0 m.c3r0 m.c1r1 m.c2r1 m.c3r1 m.c1r2 m.c2r2 m.c3r2),
       (1 / det m) * det3 m.c0r0 m.c2r0 m.c3r0 m.c0r1 m.c2r1 m.c3r1 m.c0r2 m.c2r2 m.c3r2,
       -((1 / det m) * det3 m.c0r0 m.c1r0 m.c3r0 m.c0r1 m.c1r1 m.c3r1 m.c0r2 m.c1r2 m.c3r2),
       (1 / det m) * det3 m.c0r0 m.c1r0 m.c2r0 m.c0r1 m.c1r1 m.c2r1 m.c0r2 m.c1r2 m.c2r2⟩

end Matrix4x4

/-- `DeltaAttitude`: the change in attitude of a light (translation offset in
the light's own axes, and roll/yaw/pitch angles in radians). -/
structure DeltaAttitude where
  delta_position : Vector3
  roll : ℝ
  yaw : ℝ
  pitch : ℝ

namespace DeltaAttitude

/-- `DeltaAttitude::new`. -/
def new (delta_position : Vector3) (roll yaw pitch : ℝ) : DeltaAttitude :=
  ⟨delta_position, roll, yaw, pitch⟩

/-- `DeltaAttitude::zero`. -/
def zero : DeltaAttitude := ⟨Vector3.zero, 0, 0, 0⟩

end DeltaAttitude

/-- `LightAttitudeSpec`: initial placement of a light (world position,
forward/right/up basis, and the seed rotation axis). -/
structure LightAttitudeSpec where
  position : Vector3
  forward : Vector3
  right : Vector3
  up : Vector3
  axis : Vector3

/-- `LightAttitudeSpec::new`. -/
def LightAttitudeSpec.new (position forward right up axis : Vector3) :
    LightAttitudeSpec :=
  ⟨position, forward, right, up, axis⟩

/-- `LightAttitude`: the mutable attitude state of a light. -/
structure LightAttitude where
  position : Vector3
  forward : Vector4
  right : Vector4
  up : Vector4
  axis : Quaternion
  translation_matrix : Matrix4x4
  rotation_matrix : Matrix4x4
  view_matrix : Matrix4x4

namespace LightAttitude

/-- `LightAttitude::from_spec`. -/
noncomputable def from_spec (spec : LightAttitudeSpec) : LightAttitude :=
  let axis := Quaternion.from_parts 0 spec.axis
  let translation_matrix := Matrix4x4.from_affine_translation (-spec.position)
  let rotation_matrix := Matrix4x4.from_quaternion axis
  let view_matrix := rotation_matrix * translation_matrix
  ⟨spec.position,
   spec.forward.to_homogeneous,
   spec.right.to_homogeneous,
   spec.up.to_homogeneous,
   axis,
   translation_matrix,
   rotation_matrix,
   view_matrix⟩

/-- The position `update_position_eye` moves to: the source's three `+=`
steps, displacing along `forward` by `-delta.z`, along `up` by `delta.y`,
along `right` by `delta.x`, in that order. -/
noncomputable def new_position_eye (s : LightAttitude)
    (delta_attitude : DeltaAttitude) : Vector3 :=
  ((s.position
    + (-delta_attitude.delta_position.z) • s.forward.contract)
    + delta_attitude.delta_position.y • s.up.contract)
    + delta_attitude.delta_position.x • s.right.contract

/-- `LightAttitude::update_position_eye`.  The `.unwrap()` on the matrix
inversion is modelled by `Option`: `none` is the panic. -/
noncomputable def update_position_eye (s : LightAttitude)
    (delta_attitude : DeltaAttitude) : Option LightAttitude :=
  match Matrix4x4.inverse
      (Matrix4x4.from_affine_translation (new_position_eye s delta_attitude)) with
  | some t => some { s with
      position := new_position_eye s delta_attitude,
      translation_matrix := t }
  | none => none

/-- The source's `q_yaw`: rotation by `delta.yaw` about the state's (pre-update)
up axis. -/
noncomputable def yaw_quat (s : LightAttitude)
    (delta_attitude : DeltaAttitude) : Quaternion :=
  Quaternion.from_axis_angle (Vector3.unit_from_value s.up.contract)
    delta_attitude.yaw

/-- The source's `q_pitch`: rotation by `delta.pitch` about the state's
(pre-update) right axis. -/
noncomputable def pitch_quat (s : LightAttitude)
    (delta_attitude : DeltaAttitude) : Quaternion :=
  Quaternion.from_axis_angle (Vector3.unit_from_value s.right.contract)
    delta_attitude.pitch

/-- The source's `q_roll`: rotation by `delta.roll` about the state's
(pre-update) forward axis. -/
noncomputable def roll_quat (s : LightAttitude)
    (delta_attitude : DeltaAttitude) : Quaternion :=
  Quaternion.from_axis_angle (Vector3.unit_from_value s.forward.contract)
    delta_attitude.roll

/-- The accumulator quaternion after `update_orientation_eye`: yaw, then
pitch, then roll, each left-multiplied onto the running quaternion, every
axis taken from the pre-update frame. -/
noncomputable def new_axis (s : LightAttitude)
    (delta_attitude : DeltaAttitude) : Quaternion :=
  roll_quat s delta_attitude
    * (pitch_quat s delta_attitude * (yaw_quat s delta_attitude * s.axis))

/-- `LightAttitude::update_orientation_eye`: rotate the accumulator
quaternion by yaw (about `up`), then pitch (about `right`), then roll (about
`forward`), each axis taken from the pre-update frame; then re-derive the
basis from the canonical axes through the new quaternion's matrix
(`rotation_matrix_inv` in the source) and store that matrix's inverse. -/
noncomputable def update_orientation_eye (s : LightAttitude)
    (delta_attitude : DeltaAttitude) : Option LightAttitude :=
  match Matrix4x4.inverse
      (Matrix4x4.from_quaternion (new_axis s delta_attitude)) with
  | some r => some { s with
      axis := new_axis s delta_attitude,
      forward := (Matrix4x4.from_quaternion
        (new_axis s delta_attitude)).mulVec ⟨0, 0, -1, 0⟩,
      right := (Matrix4x4.from_quaternion
        (new_axis s delta_attitude)).mulVec ⟨1, 0, 0, 0⟩,
      up := (Matrix4x4.from_quaternion
        (new_axis s delta_attitude)).mulVec ⟨0, 1, 0, 0⟩,
      rotation_matrix := r }
  | none => none

/-- `LightAttitude::update_position_world`. -/
noncomputable def update_position_world (s : LightAttitude)
    (new_position : Vector3) : Option LightAttitude :=
  match Matrix4x4.inverse (Matrix4x4.from_affine_translation new_position) with
  | some t => some { s with
      position := new_position,
      translation_matrix := t,
      view_matrix := s.rotation_matrix * t }
  | none => none

/-- `LightAttitude::update`: orientation update, then eye-relative position
update, then recompute the view matrix. -/
noncomputable def update (s : LightAttitude)
    (delta_attitude : DeltaAttitude) : Option LightAttitude :=
  (update_orientation_eye s delta_attitude).bind fun s1 =>
    (update_position_eye s1 delta_attitude).map fun s2 =>
      { s2 with view_matrix := s2.rotation_matrix * s2.translation_matrix }

end LightAttitude

/-- `Light<S, M>`: one illumination model instance plus one attitude state. -/
structure Light (M : Type) where
  model : M
  attitude : LightAttitude

namespace Light

/-- `Light::update_attitude_eye`. -/
noncomputable def update_attitude_eye {M : Type} (l : Light M)
    (delta_attitude : DeltaAttitude) : Option (Light M) :=
  (l.attitude.update delta_attitude).map fun a => ⟨l.model, a⟩

/-- `Light::update_position_world`. -/
noncomputable def update_position_world {M : Type} (l : Light M)
    (new_position : Vector3) : Option (Light M) :=
  (l.attitude.update_position_world new_position).map fun a => ⟨l.model, a⟩

end Light

/-- The states a light's attitude can reach: constructed from `spec`, then
any sequence of combined eye-space updates and world-position overrides
(`none`, the panic branch, stops a run, so every reachable state comes from
a succeeding call).  The index counts the combined updates applied. -/
inductive ReachN (spec : LightAttitudeSpec) : ℕ → LightAttitude → Prop where
  | base : ReachN spec 0 (LightAttitude.from_spec spec)
  | step_update {n : ℕ} {s s' : LightAttitude} {δ : DeltaAttitude} :
      ReachN spec n s → LightAttitude.update s δ = some s' →
      ReachN spec (n + 1) s'
  | step_world {n : ℕ} {s s' : LightAttitude} {p : Vector3} :
      ReachN spec n s → LightAttitude.update_position_world s p = some s' →
      ReachN spec n s'

/-- The spec's basis vectors are pairwise orthogonal unit vectors. -/
noncomputable def LightAttitudeSpec.orthonormal (spec : LightAttitudeSpec) : Prop :=
  Vector3.dot spec.forward spec.forward = 1 ∧
  Vector3.dot spec.right spec.right = 1 ∧
  Vector3.dot spec.up spec.up = 1 ∧
  Vector3.dot spec.forward spec.right = 0 ∧
  Vector3.dot spec.forward spec.up = 0 ∧
  Vector3.dot spec.right spec.up = 0

/-- The spec's basis is a right-handed orthonormal basis in the sense of the
specification text (`forward = right × up`). -/
noncomputable def LightAttitudeSpec.orthonormal_rh (spec : LightAttitudeSpec) : Prop :=
  spec.orthonormal ∧ spec.forward = Vector3.cross spec.right spec.up

/-- The state's basis vectors are pairwise orthogonal unit vectors. -/
noncomputable def basis_orthonormal (s : LightAttitude) : Prop :=
  Vector3.dot s.forward.contract s.forward.contract = 1 ∧
  Vector3.dot s.right.contract s.right.contract = 1 ∧
  Vector3.dot s.up.contract s.up.contract = 1 ∧
  Vector3.dot s.forward.contract s.right.contract = 0 ∧
  Vector3.dot s.forward.contract s.up.contract = 0 ∧
  Vector3.dot s.right.contract s.up.contract = 0

/-- The state's cached fields are exactly the values the orientation and
position update paths re-derive from `axis` and `position`: the basis is the
image of the canonical axes under the quaternion's matrix, the rotation
matrix is that matrix's inverse, the translation matrix is the inverse of the
translation by `position`, and the view matrix is their product.  This holds
for every state that has gone through at least one combined update. -/
noncomputable def derived_from_axis (s : LightAttitude) : Prop :=
  s.forward = (Matrix4x4.from_quaternion s.axis).mulVec ⟨0, 0, -1, 0⟩ ∧
  s.right = (Matrix4x4.from_quaternion s.axis).mulVec ⟨1, 0, 0, 0⟩ ∧
  s.up = (Matrix4x4.from_quaternion s.axis).mulVec ⟨0, 1, 0, 0⟩ ∧
  Matrix4x4.inverse (Matrix4x4.from_quaternion s.axis) = some s.rotation_matrix ∧
  Matrix4x4.inverse (Matrix4x4.from_affine_translation s.position)
    = some s.translation_matrix ∧
  s.view_matrix = s.rotation_matrix * s.translation_matrix

/-- A concrete placement: world origin, the right-handed basis
`forward = (0,0,1) = right × up`, `right = (1,0,0)`, `up = (0,1,0)`, and the
unit rotation axis `(0,1,0)`. -/
def spec_c : LightAttitudeSpec :=
  ⟨Vector3.zero, ⟨0, 0, 1⟩, ⟨1, 0, 0⟩, ⟨0, 1, 0⟩, ⟨0, 1, 0⟩⟩

/-- The value of `from_spec spec_c`, written out: the cached rotation matrix
is the half-turn about `y` encoded by the axis quaternion `(0,(0,1,0))`, while
the basis fields still hold the spec's vectors verbatim. -/
def attitude_c0 : LightAttitude :=
  ⟨⟨0, 0, 0⟩,
   ⟨0, 0, 1, 0⟩,
   ⟨1, 0, 0, 0⟩,
   ⟨0, 1, 0, 0⟩,
   ⟨0, ⟨0, 1, 0⟩⟩,
   ⟨1, 0, 0, 0, 0, 1, 0, 0, 0, 0, 1, 0, 0, 0, 0, 1⟩,
   ⟨-1, 0, 0, 0, 0, 1, 0, 0, 0, 0, -1, 0, 0, 0, 0, 1⟩,
   ⟨-1, 0, 0, 0, 0, 1, 0, 0, 0, 0, -1, 0, 0, 0, 0, 1⟩⟩

/-- The state one zero-delta combined update after `from_spec spec_c`: the
axis quaternion `(0,(0,1,0))` encodes the half-turn about `y`, so the first
update snaps the basis to that rotation's frame (flipping `right` to
`(-1,0,0)` and leaving `forward`, `up` fixed). -/
def attitude_c1 : LightAttitude :=
  ⟨⟨0, 0, 0⟩,
   ⟨0, 0, 1, 0⟩,
   ⟨-1, 0, 0, 0⟩,
   ⟨0, 1, 0, 0⟩,
   ⟨0, ⟨0, 1, 0⟩⟩,
   ⟨1, 0, 0, 0, 0, 1, 0, 0, 0, 0, 1, 0, 0, 0, 0, 1⟩,
   ⟨-1, 0, 0, 0, 0, 1, 0, 0, 0, 0, -1, 0, 0, 0, 0, 1⟩,
   ⟨-1, 0, 0, 0, 0, 1, 0, 0, 0, 0, -1, 0, 0, 0, 0, 1⟩⟩

/-- The value of `from_spec spec5`, written out. -/
def attitude_50 : LightAttitude :=
  ⟨⟨0, 0, 0⟩,
   ⟨0, 0, -1, 0⟩,
   ⟨1, 0, 0, 0⟩,
   ⟨0, 1, 0, 0⟩,
   ⟨0, ⟨0, 1, 0⟩⟩,
   ⟨1, 0, 0, 0, 0, 1, 0, 0, 0, 0, 1, 0, 0, 0, 0, 1⟩,
   ⟨-1, 0, 0, 0, 0, 1, 0, 0, 0, 0, -1, 0, 0, 0, 0, 1⟩,
   ⟨-1, 0, 0, 0, 0, 1, 0, 0, 0, 0, -1, 0, 0, 0, 0, 1⟩⟩

/-- The concrete scenario of the specification: a light at the origin with
the canonical camera basis and rotation axis `(0,1,0)`. -/
def spec5 : LightAttitudeSpec :=
  ⟨Vector3.zero, ⟨0, 0, -1⟩, ⟨1, 0, 0⟩, ⟨0, 1, 0⟩, ⟨0, 1, 0⟩⟩

/-- The delta of the concrete scenario: move `(0,0,-1)` in eye space, yaw by
90 degrees (`π/2` radians), no pitch, no roll. -/
noncomputable def delta5 : DeltaAttitude := ⟨⟨0, 0, -1⟩, 0, Real.pi / 2, 0⟩

/-- The state the concrete scenario ends in: the basis has been rotated
(on top of the seed half-turn about `y`), and the position moved one unit
along the new forward axis `(1,0,0)`. -/
noncomputable def attitude5 : LightAttitude :=
  ⟨⟨1, 0, 0⟩,
   ⟨1, 0, 0, 0⟩,
   ⟨0, 0, 1, 0⟩,
   ⟨0, 1, 0, 0⟩,
   ⟨-(Real.sqrt 2 / 2), ⟨0, Real.sqrt 2 / 2, 0⟩⟩,
   ⟨1, 0, 0, 0, 0, 1, 0, 0, 0, 0, 1, 0, -1, 0, 0, 1⟩,
   ⟨0, 0, -1, 0, 0, 1, 0, 0, 1, 0, 0, 0, 0, 0, 0, 1⟩,
   ⟨0, 0, -1, 0, 0, 1, 0, 0, 1, 0, 0, 0, 0, 0, 1, 1⟩⟩

/-- The state `update_position_world` moves `attitude_c1` to for the world
point `(5,6,7)`. -/
noncomputable def attitude_c1_world : LightAttitude :=
  { attitude_c1 with
    position := ⟨5, 6, 7⟩,
    translation_matrix :=
      Matrix4x4.from_affine_translation (-(⟨5, 6, 7⟩ : Vector3)),
    view_matrix := attitude_c1.rotation_matrix
      * Matrix4x4.from_affine_translation (-(⟨5, 6, 7⟩ : Vector3)) }

/-- The state `update_position_world` moves `from_spec spec_c` to for the
world point `(5,6,7)`. -/
noncomputable def attitude_c0_world : LightAttitude :=
  { attitude_c0 with
    position := ⟨5, 6, 7⟩,
    translation_matrix :=
      Matrix4x4.from_affine_translation (-(⟨5, 6, 7⟩ : Vector3)),
    view_matrix := attitude_c0.rotation_matrix
      * Matrix4x4.from_affine_translation (-(⟨5, 6, 7⟩ : Vector3)) }

/-! ### Algebraic facts about the embedded linear-algebra layer -/

theorem Vector3.dot_self_nonneg (v : Vector3) : 0 ≤ Vector3.dot v v := by
  obtain ⟨x, y, z⟩ := v
  simp only [Vector3.dot]
  nlinarith [mul_self_nonneg x, mul_self_nonneg y, mul_self_nonneg z]

theorem Vector3.dot_self_eq_zero_iff (v : Vector3) :
    Vector3.dot v v = 0 ↔ v = ⟨0, 0, 0⟩ := by
  obtain ⟨x, y, z⟩ := v
  simp only [Vector3.dot, Vector3.mk.injEq]
  constructor
  · intro h
    refine ⟨?_, ?_, ?_⟩ <;> nlinarith
  · rintro ⟨rfl, rfl, rfl⟩
    ring

theorem Quaternion.normSq_mul (p q : Quaternion) :
    Quaternion.normSq (p * q) = Quaternion.normSq p * Quaternion.normSq q := by
  obtain ⟨ps, px, py, pz⟩ := p
  obtain ⟨qs, qx, qy, qz⟩ := q
  simp only [Quaternion.quat_mul_def, Quaternion.normSq, Vector3.dot, Vector3.cross,
    Vector3.add_def, Vector3.smul_def]
  ring

theorem Quaternion.normSq_from_axis_angle (v : Vector3) (angle : ℝ)
    (h : Vector3.dot v v ≠ 0) :
    Quaternion.normSq
      (Quaternion.from_axis_angle (Vector3.unit_from_value v) angle) = 1 := by
  obtain ⟨x, y, z⟩ := v
  have hd : (0:ℝ) ≤ x * x + y * y + z * z := by
    nlinarith [mul_self_nonneg x, mul_self_nonneg y, mul_self_nonneg z]
  have hs : Real.sqrt (x * x + y * y + z * z) * Real.sqrt (x * x + y * y + z * z)
      = x * x + y * y + z * z := Real.mul_self_sqrt hd
  have hne : Real.sqrt (x * x + y * y + z * z) ≠ 0 := by
    intro h0
    apply h
    simp only [Vector3.dot]
    rw [← hs, h0, mul_zero]
  have hsc : Real.sin (angle / 2) ^ 2 + Real.cos (angle / 2) ^ 2 = 1 :=
    Real.sin_sq_add_cos_sq (angle / 2)
  simp only [Quaternion.from_axis_angle, Vector3.unit_from_value,
    Quaternion.normSq, Vector3.dot, Vector3.smul_def] at h ⊢
  field_simp
  nlinarith [hs, hsc, Real.sq_sqrt hd]

theorem Matrix4x4.inverse_from_affine_translation (p : Vector3) :
    Matrix4x4.inverse (Matrix4x4.from_affine_translation p)
      = some (Matrix4x4.from_affine_translation (-p)) := by
  norm_num [Matrix4x4.inverse, Matrix4x4.det, Matrix4x4.det3,
    Matrix4x4.from_affine_translation, Matrix4x4.mk.injEq]

theorem Matrix4x4.det_from_quaternion (q : Quaternion)
    (h : Quaternion.normSq q ≠ 0) :
    Matrix4x4.det (Matrix4x4.from_quaternion q) = 1 := by
  obtain ⟨w, ⟨x, y, z⟩⟩ := q
  simp only [Quaternion.normSq, Vector3.dot] at h
  simp only [Matrix4x4.det, Matrix4x4.det3, Matrix4x4.from_quaternion,
    Quaternion.normSq, Vector3.dot]
  field_simp
  ring

theorem Matrix4x4.inverse_isSome_of_det_ne_zero (m : Matrix4x4)
    (h : Matrix4x4.det m ≠ 0) : ∃ r, Matrix4x4.inverse m = some r := by
  unfold Matrix4x4.inverse
  rw [if_neg h]
  exact ⟨_, rfl⟩

theorem Matrix4x4.from_quaternion_basis (q : Quaternion)
    (h : Quaternion.normSq q ≠ 0) :
    (Vector3.dot (((Matrix4x4.from_quaternion q).mulVec ⟨0, 0, -1, 0⟩).contract)
        (((Matrix4x4.from_quaternion q).mulVec ⟨0, 0, -1, 0⟩).contract) = 1) ∧
    (Vector3.dot (((Matrix4x4.from_quaternion q).mulVec ⟨1, 0, 0, 0⟩).contract)
        (((Matrix4x4.from_quaternion q).mulVec ⟨1, 0, 0, 0⟩).contract) = 1) ∧
    (Vector3.dot (((Matrix4x4.from_quaternion q).mulVec ⟨0, 1, 0, 0⟩).contract)
        (((Matrix4x4.from_quaternion q).mulVec ⟨0, 1, 0, 0⟩).contract) = 1) ∧
    (Vector3.dot (((Matrix4x4.from_quaternion q).mulVec ⟨0, 0, -1, 0⟩).contract)
        (((Matrix4x4.from_quaternion q).mulVec ⟨1, 0, 0, 0⟩).contract) = 0) ∧
    (Vector3.dot (((Matrix4x4.from_quaternion q).mulVec ⟨0, 0, -1, 0⟩).contract)
        (((Matrix4x4.from_quaternion q).mulVec ⟨0, 1, 0, 0⟩).contract) = 0) ∧
    (Vector3.dot (((Matrix4x4.from_quaternion q).mulVec ⟨1, 0, 0, 0⟩).contract)
        (((Matrix4x4.from_quaternion q).mulVec ⟨0, 1, 0, 0⟩).contract) = 0) ∧
    (((Matrix4x4.from_quaternion q).mulVec ⟨0, 0, -1, 0⟩).contract
      = -(Vector3.cross
          (((Matrix4x4.from_quaternion q).mulVec ⟨1, 0, 0, 0⟩).contract)
          (((Matrix4x4.from_quaternion q).mulVec ⟨0, 1, 0, 0⟩).contract))) := by
  obtain ⟨w, ⟨x, y, z⟩⟩ := q
  simp only [Quaternion.normSq, Vector3.dot] at h
  simp only [Matrix4x4.from_quaternion, Matrix4x4.mulVec, Vector4.contract,
    Quaternion.normSq, Vector3.dot, Vector3.cross, Vector3.neg_def,
    Vector3.mk.injEq]
  have hk : 2 / (w ^ 2 + (x * x + y * y + z * z))
      * (w ^ 2 + (x * x + y * y + z * z)) = 2 := div_mul_cancel₀ 2 h
  set k := 2 / (w ^ 2 + (x * x + y * y + z * z)) with hkdef
  refine ⟨?_, ?_, ?_, ?_, ?_, ?_, ?_, ?_, ?_⟩
  · linear_combination (k * (x ^ 2 + y ^ 2)) * hk
  · linear_combination (k * (y ^ 2 + z ^ 2)) * hk
  · linear_combination (k * (x ^ 2 + z ^ 2)) * hk
  · linear_combination (k * x * z) * hk
  · linear_combination (k * y * z) * hk
  · linear_combination (-(k * x * y)) * hk
  · linear_combination (k * x * z) * hk
  · linear_combination (k * y * z) * hk
  · linear_combination (k * z ^ 2) * hk

/-! ### How each mutator transforms the state -/

theorem LightAttitude.from_spec_eq (spec : LightAttitudeSpec) :
    LightAttitude.from_spec spec =
      ⟨spec.position,
       spec.forward.to_homogeneous,
       spec.right.to_homogeneous,
       spec.up.to_homogeneous,
       ⟨0, spec.axis⟩,
       Matrix4x4.from_affine_translation (-spec.position),
       Matrix4x4.from_quaternion ⟨0, spec.axis⟩,
       Matrix4x4.from_quaternion ⟨0, spec.axis⟩
         * Matrix4x4.from_affine_translation (-spec.position)⟩ := rfl

theorem LightAttitude.update_position_eye_eq (s : LightAttitude)
    (δ : DeltaAttitude) :
    LightAttitude.update_position_eye s δ = some { s with
      position := LightAttitude.new_position_eye s δ,
      translation_matrix := Matrix4x4.from_affine_translation
        (-(LightAttitude.new_position_eye s δ)) } := by
  unfold LightAttitude.update_position_eye
  rw [Matrix4x4.inverse_from_affine_translation]

theorem LightAttitude.update_position_world_eq (s : LightAttitude)
    (p : Vector3) :
    LightAttitude.update_position_world s p = some { s with
      position := p,
      translation_matrix := Matrix4x4.from_affine_translation (-p),
      view_matrix := s.rotation_matrix
        * Matrix4x4.from_affine_translation (-p) } := by
  unfold LightAttitude.update_position_world
  rw [Matrix4x4.inverse_from_affine_translation]

theorem LightAttitude.update_orientation_eye_some {s s' : LightAttitude}
    {δ : DeltaAttitude}
    (h : LightAttitude.update_orientation_eye s δ = some s') :
    ∃ r, Matrix4x4.inverse
        (Matrix4x4.from_quaternion (LightAttitude.new_axis s δ)) = some r ∧
    s' = { s with
      axis := LightAttitude.new_axis s δ,
      forward := (Matrix4x4.from_quaternion
        (LightAttitude.new_axis s δ)).mulVec ⟨0, 0, -1, 0⟩,
      right := (Matrix4x4.from_quaternion
        (LightAttitude.new_axis s δ)).mulVec ⟨1, 0, 0, 0⟩,
      up := (Matrix4x4.from_quaternion
        (LightAttitude.new_axis s δ)).mulVec ⟨0, 1, 0, 0⟩,
      rotation_matrix := r } := by
  unfold LightAttitude.update_orientation_eye at h
  cases hm : Matrix4x4.inverse
      (Matrix4x4.from_quaternion (LightAttitude.new_axis s δ)) with
  | none =>
      rw [hm] at h
      simp at h
  | some r =>
      rw [hm] at h
      simp only [Option.some.injEq] at h
      subst h
      exact ⟨r, rfl, rfl⟩

theorem LightAttitude.update_orientation_eye_isSome (s : LightAttitude)
    (δ : DeltaAttitude)
    (h : Quaternion.normSq (LightAttitude.new_axis s δ) ≠ 0) :
    ∃ s', LightAttitude.update_orientation_eye s δ = some s' := by
  obtain ⟨r, hr⟩ := Matrix4x4.inverse_isSome_of_det_ne_zero
    (Matrix4x4.from_quaternion (LightAttitude.new_axis s δ))
    (by rw [Matrix4x4.det_from_quaternion _ h]; exact one_ne_zero)
  refine ⟨{ s with
    axis := LightAttitude.new_axis s δ,
    forward := (Matrix4x4.from_quaternion
      (LightAttitude.new_axis s δ)).mulVec ⟨0, 0, -1, 0⟩,
    right := (Matrix4x4.from_quaternion
      (LightAttitude.new_axis s δ)).mulVec ⟨1, 0, 0, 0⟩,
    up := (Matrix4x4.from_quaternion
      (LightAttitude.new_axis s δ)).mulVec ⟨0, 1, 0, 0⟩,
    rotation_matrix := r }, ?_⟩
  unfold LightAttitude.update_orientation_eye
  rw [hr]

theorem LightAttitude.update_some_iff {s s' : LightAttitude}
    {δ : DeltaAttitude} :
    LightAttitude.update s δ = some s' ↔
      ∃ s1 s2, LightAttitude.update_orientation_eye s δ = some s1 ∧
        LightAttitude.update_position_eye s1 δ = some s2 ∧
        s' = { s2 with
          view_matrix := s2.rotation_matrix * s2.translation_matrix } := by
  unfold LightAttitude.update
  constructor
  · intro h
    rcases Option.bind_eq_some.mp h with ⟨s1, h1, h2⟩
    rcases Option.map_eq_some'.mp h2 with ⟨s2, h3, h4⟩
    exact ⟨s1, s2, h1, h3, h4.symm⟩
  · rintro ⟨s1, s2, h1, h2, rfl⟩
    rw [h1, Option.some_bind, h2, Option.map_some']

/-! ### The reachability invariant -/

theorem new_axis_normSq (s : LightAttitude) (δ : DeltaAttitude)
    (hb : basis_orthonormal s) :
    Quaternion.normSq (LightAttitude.new_axis s δ)
      = Quaternion.normSq s.axis := by
  obtain ⟨hf, hr, hu, -, -, -⟩ := hb
  have hyaw : Quaternion.normSq (LightAttitude.yaw_quat s δ) = 1 :=
    Quaternion.normSq_from_axis_angle _ _ (by rw [hu]; exact one_ne_zero)
  have hpitch : Quaternion.normSq (LightAttitude.pitch_quat s δ) = 1 :=
    Quaternion.normSq_from_axis_angle _ _ (by rw [hr]; exact one_ne_zero)
  have hroll : Quaternion.normSq (LightAttitude.roll_quat s δ) = 1 :=
    Quaternion.normSq_from_axis_angle _ _ (by rw [hf]; exact one_ne_zero)
  simp only [LightAttitude.new_axis, Quaternion.normSq_mul, hyaw, hpitch,
    hroll, one_mul]

set_option maxHeartbeats 1000000 in
theorem reach_inv {spec : LightAttitudeSpec} {n : ℕ} {s : LightAttitude}
    (h1 : spec.orthonormal) (h2 : spec.axis ≠ ⟨0, 0, 0⟩)
    (hr : ReachN spec n s) :
    basis_orthonormal s ∧ Quaternion.normSq s.axis ≠ 0 ∧
      (0 < n → derived_from_axis s) := by
  induction hr with
  | base =>
      refine ⟨?_, ?_, fun h => absurd h (lt_irrefl 0)⟩
      · simpa [basis_orthonormal, LightAttitude.from_spec_eq, Vector4.contract,
          Vector3.to_homogeneous, LightAttitudeSpec.orthonormal] using h1
      · simp only [LightAttitude.from_spec_eq, Quaternion.normSq]
        norm_num
        intro h0
        exact h2 ((Vector3.dot_self_eq_zero_iff _).mp h0)
  | step_update hprev hup ih =>
      obtain ⟨ib, ia, -⟩ := ih
      rename_i m t t' δ
      rcases LightAttitude.update_some_iff.mp hup with ⟨s1, s2, ho, hp, rfl⟩
      obtain ⟨r, hinv, rfl⟩ := LightAttitude.update_orientation_eye_some ho
      rw [LightAttitude.update_position_eye_eq] at hp
      simp only [Option.some.injEq] at hp
      subst hp
      have hna : Quaternion.normSq (LightAttitude.new_axis t δ) ≠ 0 := by
        rw [new_axis_normSq t δ ib]; exact ia
      obtain ⟨b1, b2, b3, b4, b5, b6, -⟩ :=
        Matrix4x4.from_quaternion_basis _ hna
      refine ⟨⟨?_, ?_, ?_, ?_, ?_, ?_⟩, ?_, fun _ => ?_⟩
      · dsimp only; exact b1
      · dsimp only; exact b2
      · dsimp only; exact b3
      · dsimp only; exact b4
      · dsimp only; exact b5
      · dsimp only; exact b6
      · dsimp only; exact hna
      · refine ⟨rfl, rfl, rfl, ?_, ?_, rfl⟩
        · dsimp only; exact hinv
        · dsimp only; exact Matrix4x4.inverse_from_affine_translation _
  | step_world hprev hw ih =>
      obtain ⟨ib, ia, id⟩ := ih
      rename_i m t t' p
      rw [LightAttitude.update_position_world_eq] at hw
      simp only [Option.some.injEq] at hw
      subst hw
      refine ⟨⟨?_, ?_, ?_, ?_, ?_, ?_⟩, ?_, fun hn => ?_⟩
      · dsimp only; exact ib.1
      · dsimp only; exact ib.2.1
      · dsimp only; exact ib.2.2.1
      · dsimp only; exact ib.2.2.2.1
      · dsimp only; exact ib.2.2.2.2.1
      · dsimp only; exact ib.2.2.2.2.2
      · dsimp only; exact ia
      · obtain ⟨d1, d2, d3, d4, -, -⟩ := id hn
        refine ⟨?_, ?_, ?_, ?_, ?_, rfl⟩
        · dsimp only; exact d1
        · dsimp only; exact d2
        · dsimp only; exact d3
        · dsimp only; exact d4
        · dsimp only; exact Matrix4x4.inverse_from_affine_translation _

/-! ### The zero delta and concrete evaluations -/

theorem Quaternion.from_axis_angle_zero (u : Vector3) :
    Quaternion.from_axis_angle u 0 = ⟨1, ⟨0, 0, 0⟩⟩ := by
  simp [Quaternion.from_axis_angle, Real.cos_zero, Real.sin_zero]

theorem Quaternion.one_mul_quat (q : Quaternion) :
    (⟨1, ⟨0, 0, 0⟩⟩ : Quaternion) * q = q := by
  obtain ⟨qs, qx, qy, qz⟩ := q
  simp [Quaternion.quat_mul_def, Vector3.dot, Vector3.cross, Vector3.mk.injEq,
    Quaternion.mk.injEq]

theorem LightAttitude.new_axis_zero (s : LightAttitude) :
    LightAttitude.new_axis s DeltaAttitude.zero = s.axis := by
  simp only [LightAttitude.new_axis, LightAttitude.yaw_quat,
    LightAttitude.pitch_quat, LightAttitude.roll_quat, DeltaAttitude.zero,
    Quaternion.from_axis_angle_zero, Quaternion.one_mul_quat]

theorem LightAttitude.new_position_eye_zero (s : LightAttitude) :
    LightAttitude.new_position_eye s DeltaAttitude.zero = s.position := by
  obtain ⟨⟨px, py, pz⟩, f, r, u, a, tm, rm, vm⟩ := s
  simp only [LightAttitude.new_position_eye, DeltaAttitude.zero, Vector3.zero,
    Vector3.add_def, Vector3.smul_def, Vector4.contract, Vector3.mk.injEq]
  norm_num

/-- A zero-delta combined update is the exact identity on every state whose
cached fields are consistently derived from its axis quaternion and
position. -/
theorem LightAttitude.update_zero_of_derived {s : LightAttitude}
    (hd : derived_from_axis s) :
    LightAttitude.update s DeltaAttitude.zero = some s := by
  obtain ⟨df, dr, du, dinv, dtr, dview⟩ := hd
  have htr : Matrix4x4.from_affine_translation (-s.position)
      = s.translation_matrix := by
    have h := dtr
    rw [Matrix4x4.inverse_from_affine_translation] at h
    exact (Option.some.injEq _ _).mp h
  rw [LightAttitude.update_some_iff]
  refine ⟨s, s, ?_, ?_, ?_⟩
  · unfold LightAttitude.update_orientation_eye
    rw [LightAttitude.new_axis_zero, dinv, ← df, ← dr, ← du]
  · rw [LightAttitude.update_position_eye_eq,
      LightAttitude.new_position_eye_zero, htr]
  · rw [← dview]

theorem from_spec_c_eval : LightAttitude.from_spec spec_c = attitude_c0 := by
  norm_num [LightAttitude.from_spec_eq, spec_c, attitude_c0, Vector3.zero,
    Vector3.to_homogeneous, Matrix4x4.from_affine_translation,
    Matrix4x4.from_quaternion, Quaternion.normSq, Vector3.dot,
    Matrix4x4.mat_mul_def, Matrix4x4.matMul, LightAttitude.mk.injEq,
    Matrix4x4.mk.injEq, Vector4.mk.injEq, Vector3.mk.injEq,
    Quaternion.mk.injEq]

theorem update_orient_c_eval :
    LightAttitude.update_orientation_eye attitude_c0 DeltaAttitude.zero
      = some attitude_c1 := by
  have hfq : Matrix4x4.from_quaternion (⟨0, ⟨0, 1, 0⟩⟩ : Quaternion)
      = ⟨-1, 0, 0, 0, 0, 1, 0, 0, 0, 0, -1, 0, 0, 0, 0, 1⟩ := by
    norm_num [Matrix4x4.from_quaternion, Quaternion.normSq, Vector3.dot,
      Matrix4x4.mk.injEq]
  have hinv : Matrix4x4.inverse
      (⟨-1, 0, 0, 0, 0, 1, 0, 0, 0, 0, -1, 0, 0, 0, 0, 1⟩ : Matrix4x4)
      = some ⟨-1, 0, 0, 0, 0, 1, 0, 0, 0, 0, -1, 0, 0, 0, 0, 1⟩ := by
    norm_num [Matrix4x4.inverse, Matrix4x4.det, Matrix4x4.det3,
      Matrix4x4.mk.injEq]
  have ha : attitude_c0.axis = (⟨0, ⟨0, 1, 0⟩⟩ : Quaternion) := rfl
  unfold LightAttitude.update_orientation_eye
  rw [LightAttitude.new_axis_zero, ha, hfq, hinv]
  norm_num [Matrix4x4.mulVec, attitude_c0, attitude_c1,
    LightAttitude.mk.injEq, Vector4.mk.injEq]

theorem update_c_eval :
    LightAttitude.update (LightAttitude.from_spec spec_c) DeltaAttitude.zero
      = some attitude_c1 := by
  rw [from_spec_c_eval, LightAttitude.update_some_iff]
  refine ⟨attitude_c1, attitude_c1, update_orient_c_eval, ?_, ?_⟩
  · rw [LightAttitude.update_position_eye_eq,
      LightAttitude.new_position_eye_zero]
    norm_num [attitude_c1, Matrix4x4.from_affine_translation,
      LightAttitude.mk.injEq, Matrix4x4.mk.injEq]
  · norm_num [attitude_c1, Matrix4x4.mat_mul_def, Matrix4x4.matMul,
      LightAttitude.mk.injEq, Matrix4x4.mk.injEq]

theorem from_spec_5_eval : LightAttitude.from_spec spec5 = attitude_50 := by
  norm_num [LightAttitude.from_spec_eq, spec5, attitude_50, Vector3.zero,
    Vector3.to_homogeneous, Matrix4x4.from_affine_translation,
    Matrix4x4.from_quaternion, Quaternion.normSq, Vector3.dot,
    Matrix4x4.mat_mul_def, Matrix4x4.matMul, LightAttitude.mk.injEq,
    Matrix4x4.mk.injEq, Vector4.mk.injEq, Vector3.mk.injEq,
    Quaternion.mk.injEq]

theorem new_axis_50_delta5 :
    LightAttitude.new_axis attitude_50 delta5
      = ⟨-(Real.sqrt 2 / 2), ⟨0, Real.sqrt 2 / 2, 0⟩⟩ := by
  have hu : Vector3.unit_from_value ⟨0, 1, 0⟩ = ⟨0, 1, 0⟩ := by
    norm_num [Vector3.unit_from_value, Vector3.dot, Real.sqrt_one,
      Vector3.mk.injEq]
  have hyaw : LightAttitude.yaw_quat attitude_50 delta5
      = ⟨Real.sqrt 2 / 2, ⟨0, Real.sqrt 2 / 2, 0⟩⟩ := by
    have hc : Real.cos (Real.pi / 2 / 2) = Real.sqrt 2 / 2 := by
      rw [show Real.pi / 2 / 2 = Real.pi / 4 by ring, Real.cos_pi_div_four]
    have hs : Real.sin (Real.pi / 2 / 2) = Real.sqrt 2 / 2 := by
      rw [show Real.pi / 2 / 2 = Real.pi / 4 by ring, Real.sin_pi_div_four]
    have h50 : attitude_50.up.contract = ⟨0, 1, 0⟩ := rfl
    rw [LightAttitude.yaw_quat, h50, hu]
    show (⟨Real.cos (delta5.yaw / 2),
      Real.sin (delta5.yaw / 2) • ⟨0, 1, 0⟩⟩ : Quaternion) = _
    have h5y : delta5.yaw = Real.pi / 2 := rfl
    rw [h5y, hc, hs]
    norm_num [Vector3.mk.injEq, Quaternion.mk.injEq]
  have hpitch : LightAttitude.pitch_quat attitude_50 delta5
      = ⟨1, ⟨0, 0, 0⟩⟩ := by
    have h5p : delta5.pitch = 0 := rfl
    rw [LightAttitude.pitch_quat, h5p, Quaternion.from_axis_angle_zero]
  have hroll : LightAttitude.roll_quat attitude_50 delta5
      = ⟨1, ⟨0, 0, 0⟩⟩ := by
    have h5r : delta5.roll = 0 := rfl
    rw [LightAttitude.roll_quat, h5r, Quaternion.from_axis_angle_zero]
  have ha : attitude_50.axis = (⟨0, ⟨0, 1, 0⟩⟩ : Quaternion) := rfl
  rw [LightAttitude.new_axis, hyaw, hpitch, hroll, ha,
    Quaternion.one_mul_quat, Quaternion.one_mul_quat]
  norm_num [Quaternion.quat_mul_def, Vector3.dot, Vector3.cross,
    Vector3.mk.injEq, Quaternion.mk.injEq]

theorem from_quaternion_axis5 :
    Matrix4x4.from_quaternion
        (⟨-(Real.sqrt 2 / 2), ⟨0, Real.sqrt 2 / 2, 0⟩⟩ : Quaternion)
      = ⟨0, 0, 1, 0, 0, 1, 0, 0, -1, 0, 0, 0, 0, 0, 0, 1⟩ := by
  have h2 : Real.sqrt 2 * Real.sqrt 2 = 2 :=
    Real.mul_self_sqrt (by norm_num)
  have ha : (Real.sqrt 2 / 2 : ℝ) ^ 2 = 1 / 2 := by
    rw [div_pow, sq, h2]
    norm_num
  have hb : (Real.sqrt 2 / 2 : ℝ) * (Real.sqrt 2 / 2) = 1 / 2 := by
    rw [div_mul_div_comm, h2]
    norm_num
  simp only [Matrix4x4.from_quaternion, Quaternion.normSq, Vector3.dot,
    Matrix4x4.mk.injEq]
  norm_num [ha, hb]

theorem update_orient_5_eval :
    LightAttitude.update_orientation_eye attitude_50 delta5
      = some { attitude_50 with
          axis := ⟨-(Real.sqrt 2 / 2), ⟨0, Real.sqrt 2 / 2, 0⟩⟩,
          forward := ⟨1, 0, 0, 0⟩,
          right := ⟨0, 0, 1, 0⟩,
          up := ⟨0, 1, 0, 0⟩,
          rotation_matrix :=
            ⟨0, 0, -1, 0, 0, 1, 0, 0, 1, 0, 0, 0, 0, 0, 0, 1⟩ } := by
  have hinv : Matrix4x4.inverse
      (⟨0, 0, 1, 0, 0, 1, 0, 0, -1, 0, 0, 0, 0, 0, 0, 1⟩ : Matrix4x4)
      = some ⟨0, 0, -1, 0, 0, 1, 0, 0, 1, 0, 0, 0, 0, 0, 0, 1⟩ := by
    norm_num [Matrix4x4.inverse, Matrix4x4.det, Matrix4x4.det3,
      Matrix4x4.mk.injEq]
  unfold LightAttitude.update_orientation_eye
  rw [new_axis_50_delta5, from_quaternion_axis5, hinv]
  norm_num [Matrix4x4.mulVec, LightAttitude.mk.injEq, Vector4.mk.injEq]

theorem update_5_eval :
    LightAttitude.update (LightAttitude.from_spec spec5) delta5
      = some attitude5 := by
  rw [from_spec_5_eval, LightAttitude.update_some_iff]
  refine ⟨_, { attitude5 with
    view_matrix := ⟨-1, 0, 0, 0, 0, 1, 0, 0, 0, 0, -1, 0, 0, 0, 0, 1⟩ },
    update_orient_5_eval, ?_, ?_⟩
  · rw [LightAttitude.update_position_eye_eq]
    have hp : LightAttitude.new_position_eye
        ({ attitude_50 with
          axis := ⟨-(Real.sqrt 2 / 2), ⟨0, Real.sqrt 2 / 2, 0⟩⟩,
          forward := ⟨1, 0, 0, 0⟩,
          right := ⟨0, 0, 1, 0⟩,
          up := ⟨0, 1, 0, 0⟩,
          rotation_matrix :=
            ⟨0, 0, -1, 0, 0, 1, 0, 0, 1, 0, 0, 0, 0, 0, 0, 1⟩ }) delta5
        = ⟨1, 0, 0⟩ := by
      norm_num [LightAttitude.new_position_eye, Vector4.contract,
        Vector3.mk.injEq, attitude_50, delta5]
    rw [hp]
    norm_num [attitude5, attitude_50, Matrix4x4.from_affine_translation,
      LightAttitude.mk.injEq, Matrix4x4.mk.injEq, Vector3.mk.injEq]
  · norm_num [attitude5, Matrix4x4.mat_mul_def, Matrix4x4.matMul,
      LightAttitude.mk.injEq, Matrix4x4.mk.injEq]

theorem world_c1_eval :
    LightAttitude.update_position_world attitude_c1 ⟨5, 6, 7⟩
      = some attitude_c1_world := by
  rw [LightAttitude.update_position_world_eq]
  rfl

theorem world_c0_eval :
    LightAttitude.update_position_world attitude_c0 ⟨5, 6, 7⟩
      = some attitude_c0_world := by
  rw [LightAttitude.update_position_world_eq]
  rfl

/-! ### The claims -/

/-- C1: for every Light state reachable by construction followed by any
sequence of combined eye-space updates and world-position overrides, the
cached view matrix equals `rotation_matrix * translation_matrix` exactly,
because every mutator recomputes it as that product before returning. -/
theorem C1_view_matrix_invariant {spec : LightAttitudeSpec} {n : ℕ}
    {s : LightAttitude} (hr : ReachN spec n s) :
    s.view_matrix = s.rotation_matrix * s.translation_matrix := by
  induction hr with
  | base => rfl
  | step_update hprev hup ih =>
      rcases LightAttitude.update_some_iff.mp hup with ⟨s1, s2, -, -, rfl⟩
      rfl
  | step_world hprev hw ih =>
      rw [LightAttitude.update_position_world_eq] at hw
      simp only [Option.some.injEq] at hw
      subst hw
      rfl

/-- C1 witness: the invariant at the concretely constructed state. -/
theorem C1_view_matrix_invariant_witness :
    (LightAttitude.from_spec spec_c).view_matrix
      = (LightAttitude.from_spec spec_c).rotation_matrix
        * (LightAttitude.from_spec spec_c).translation_matrix :=
  C1_view_matrix_invariant ReachN.base

/-- C2 counterexample: `spec_c` has a right-handed orthonormal basis in the
claim's sense (`forward = right × up`), yet after one combined update the
state satisfies `forward = (0,0,1)` while `right × up = (0,0,-1)`: the claim's
`forward ≈ right × up` fails by a distance of 2, far beyond floating
tolerance. -/
theorem C2_counterexample :
    spec_c.orthonormal_rh ∧
    LightAttitude.update (LightAttitude.from_spec spec_c) DeltaAttitude.zero
      = some attitude_c1 ∧
    attitude_c1.forward.contract = ⟨0, 0, 1⟩ ∧
    Vector3.cross attitude_c1.right.contract attitude_c1.up.contract
      = ⟨0, 0, -1⟩ ∧
    attitude_c1.forward.contract
      ≠ Vector3.cross attitude_c1.right.contract attitude_c1.up.contract := by
  refine ⟨?_, update_c_eval, rfl, ?_, ?_⟩
  · norm_num [LightAttitudeSpec.orthonormal_rh, LightAttitudeSpec.orthonormal,
      spec_c, Vector3.dot, Vector3.cross, Vector3.mk.injEq]
  · norm_num [attitude_c1, Vector4.contract, Vector3.cross, Vector3.mk.injEq]
  · norm_num [attitude_c1, Vector4.contract, Vector3.cross, Vector3.mk.injEq]

/-- C2 (amended): for every spec whose basis is right-handed orthonormal and
whose rotation axis is nonzero, along every reachable state the basis vectors
remain pairwise orthogonal unit vectors; and once at least one combined
update has run, `forward = -(right × up)` — the opposite sign to the claim's
`forward ≈ right × up`, because the canonical camera frame
`(0,0,-1), (1,0,0), (0,1,0)` the basis is re-derived from satisfies
`forward = -(right × up)`. -/
theorem C2_orthonormal_invariant {spec : LightAttitudeSpec} {n : ℕ}
    {s : LightAttitude} (h1 : spec.orthonormal_rh)
    (h2 : spec.axis ≠ ⟨0, 0, 0⟩) (hr : ReachN spec n s) :
    basis_orthonormal s ∧ (0 < n →
      s.forward.contract
        = -(Vector3.cross s.right.contract s.up.contract)) := by
  obtain ⟨hb, hax, hder⟩ := reach_inv h1.1 h2 hr
  refine ⟨hb, fun hn => ?_⟩
  obtain ⟨df, drr, duu, -, -, -⟩ := hder hn
  rw [df, drr, duu]
  exact (Matrix4x4.from_quaternion_basis s.axis hax).2.2.2.2.2.2

/-- C2 witness: the amended invariant at the state reached by one update. -/
theorem C2_orthonormal_invariant_witness :
    basis_orthonormal attitude_c1 ∧
    attitude_c1.forward.contract
      = -(Vector3.cross attitude_c1.right.contract attitude_c1.up.contract) := by
  have h := C2_orthonormal_invariant
    (by norm_num [LightAttitudeSpec.orthonormal_rh,
      LightAttitudeSpec.orthonormal, spec_c, Vector3.dot, Vector3.cross,
      Vector3.mk.injEq])
    (by simp [spec_c, Vector3.mk.injEq])
    (ReachN.step_update ReachN.base update_c_eval)
  exact ⟨h.1, h.2 one_pos⟩

/-- C3 counterexample: at the state immediately after construction from
`spec_c`, the zero-delta combined update is not a no-op: it flips the right
basis vector from `(1,0,0,0)` to `(-1,0,0,0)` (the first update snaps the
basis to the frame encoded by the axis quaternion). -/
theorem C3_counterexample :
    LightAttitude.update (LightAttitude.from_spec spec_c) DeltaAttitude.zero
      = some attitude_c1 ∧
    attitude_c1.right ≠ (LightAttitude.from_spec spec_c).right := by
  refine ⟨update_c_eval, ?_⟩
  rw [from_spec_c_eval]
  norm_num [attitude_c1, attitude_c0, Vector4.mk.injEq]

/-- C3 (amended): on every reachable state that has gone through at least
one combined update, the zero-delta combined update is the exact identity on
the whole state (position, basis vectors, axis quaternion and all three
cached matrices); it is not a no-op on the state immediately after
construction, where it replaces the basis by the quaternion-derived frame. -/
theorem C3_zero_delta_identity {spec : LightAttitudeSpec} {n : ℕ}
    {s : LightAttitude} (h1 : spec.orthonormal)
    (h2 : spec.axis ≠ ⟨0, 0, 0⟩) (hr : ReachN spec (n + 1) s) :
    LightAttitude.update s DeltaAttitude.zero = some s :=
  LightAttitude.update_zero_of_derived
    ((reach_inv h1 h2 hr).2.2 (Nat.succ_pos n))

/-- C3 witness: the zero delta is the exact identity on `attitude_c1`. -/
theorem C3_zero_delta_identity_witness :
    LightAttitude.update attitude_c1 DeltaAttitude.zero = some attitude_c1 :=
  C3_zero_delta_identity
    (by norm_num [LightAttitudeSpec.orthonormal, spec_c, Vector3.dot])
    (by simp [spec_c, Vector3.mk.injEq])
    (ReachN.step_update ReachN.base update_c_eval)

/-- C4: the orientation update sets the accumulator to
`q_roll * (q_pitch * (q_yaw * axis_old))` — yaw about the pre-update up,
then pitch about the pre-update right, then roll about the pre-update
forward, each left-multiplied — and re-derives forward/right/up by
transforming the canonical axes `(0,0,-1)`, `(1,0,0)`, `(0,1,0)` through the
matrix built from the updated quaternion. -/
theorem C4_orientation_update {s s' : LightAttitude} {δ : DeltaAttitude}
    (h : LightAttitude.update_orientation_eye s δ = some s') :
    s'.axis = LightAttitude.roll_quat s δ
        * (LightAttitude.pitch_quat s δ
          * (LightAttitude.yaw_quat s δ * s.axis)) ∧
    s'.forward = (Matrix4x4.from_quaternion s'.axis).mulVec ⟨0, 0, -1, 0⟩ ∧
    s'.right = (Matrix4x4.from_quaternion s'.axis).mulVec ⟨1, 0, 0, 0⟩ ∧
    s'.up = (Matrix4x4.from_quaternion s'.axis).mulVec ⟨0, 1, 0, 0⟩ := by
  obtain ⟨r, -, rfl⟩ := LightAttitude.update_orientation_eye_some h
  exact ⟨rfl, rfl, rfl, rfl⟩

/-- C4 witness: the orientation-update structure at a concrete call. -/
theorem C4_orientation_update_witness :
    LightAttitude.update_orientation_eye attitude_c0 DeltaAttitude.zero
      = some attitude_c1 ∧
    (attitude_c1.axis = LightAttitude.roll_quat attitude_c0 DeltaAttitude.zero
        * (LightAttitude.pitch_quat attitude_c0 DeltaAttitude.zero
          * (LightAttitude.yaw_quat attitude_c0 DeltaAttitude.zero
            * attitude_c0.axis)) ∧
      attitude_c1.forward = (Matrix4x4.from_quaternion
        attitude_c1.axis).mulVec ⟨0, 0, -1, 0⟩ ∧
      attitude_c1.right = (Matrix4x4.from_quaternion
        attitude_c1.axis).mulVec ⟨1, 0, 0, 0⟩ ∧
      attitude_c1.up = (Matrix4x4.from_quaternion
        attitude_c1.axis).mulVec ⟨0, 1, 0, 0⟩) :=
  ⟨update_orient_c_eval, C4_orientation_update update_orient_c_eval⟩

/-- C5: the spec's concrete scenario, computed exactly: from the origin with
the canonical basis and axis `(0,1,0)`, the delta
`(delta_position = (0,0,-1), yaw = 90°, pitch = roll = 0)` makes the right
axis exactly `(0,0,1)` and moves the position by exactly one unit along the
new (post-rotation) forward direction `(1,0,0)` — not along the old forward
`(0,0,-1)`. -/
theorem C5_concrete_scenario :
    LightAttitude.update (LightAttitude.from_spec spec5) delta5
      = some attitude5 ∧
    attitude5.right.contract = ⟨0, 0, 1⟩ ∧
    attitude5.position = (LightAttitude.from_spec spec5).position
      + (1 : ℝ) • attitude5.forward.contract ∧
    attitude5.position ≠ (LightAttitude.from_spec spec5).position
      + (1 : ℝ) • (LightAttitude.from_spec spec5).forward.contract := by
  refine ⟨update_5_eval, rfl, ?_, ?_⟩
  · rw [from_spec_5_eval]
    norm_num [attitude5, attitude_50, Vector4.contract, Vector3.mk.injEq]
  · rw [from_spec_5_eval]
    norm_num [attitude5, attitude_50, Vector4.contract, Vector3.mk.injEq]

/-- C6: the combined update first runs the orientation update and then
displaces the position by `forward * (-δz) + up * δy + right * δx` computed
with the just-rotated basis vectors; the orientation state of the result is
the orientation update's, and the view matrix is recomputed last. -/
theorem C6_rotate_then_translate {s s1 s' : LightAttitude}
    {δ : DeltaAttitude}
    (h1 : LightAttitude.update_orientation_eye s δ = some s1)
    (h : LightAttitude.update s δ = some s') :
    s'.position = ((s1.position
        + (-δ.delta_position.z) • s1.forward.contract)
        + δ.delta_position.y • s1.up.contract)
        + δ.delta_position.x • s1.right.contract ∧
    s'.forward = s1.forward ∧ s'.right = s1.right ∧ s'.up = s1.up ∧
    s'.axis = s1.axis ∧ s'.rotation_matrix = s1.rotation_matrix ∧
    s'.view_matrix = s'.rotation_matrix * s'.translation_matrix := by
  rcases LightAttitude.update_some_iff.mp h with ⟨t1, t2, ho, hp, rfl⟩
  rw [h1] at ho
  simp only [Option.some.injEq] at ho
  subst ho
  rw [LightAttitude.update_position_eye_eq] at hp
  simp only [Option.some.injEq] at hp
  subst hp
  exact ⟨rfl, rfl, rfl, rfl, rfl, rfl, rfl⟩

/-- C6 witness: the decomposition at a concrete combined update. -/
theorem C6_rotate_then_translate_witness :
    attitude_c1.position = ((attitude_c1.position
        + (-(DeltaAttitude.zero.delta_position.z))
          • attitude_c1.forward.contract)
        + DeltaAttitude.zero.delta_position.y • attitude_c1.up.contract)
        + DeltaAttitude.zero.delta_position.x • attitude_c1.right.contract ∧
    attitude_c1.forward = attitude_c1.forward ∧
    attitude_c1.right = attitude_c1.right ∧
    attitude_c1.up = attitude_c1.up ∧
    attitude_c1.axis = attitude_c1.axis ∧
    attitude_c1.rotation_matrix = attitude_c1.rotation_matrix ∧
    attitude_c1.view_matrix
      = attitude_c1.rotation_matrix * attitude_c1.translation_matrix :=
  C6_rotate_then_translate
    (by rw [from_spec_c_eval]; exact update_orient_c_eval) update_c_eval

/-- C7: `update_position_world p` sets the position to exactly `p`,
recomputes the translation matrix (as the inverse of the translation by `p`,
i.e. the translation by `-p`) and the view matrix immediately, and leaves
forward, right, up, the axis quaternion and the rotation matrix unchanged. -/
theorem C7_world_override {s s' : LightAttitude} {p : Vector3}
    (h : LightAttitude.update_position_world s p = some s') :
    s'.position = p ∧
    s'.translation_matrix = Matrix4x4.from_affine_translation (-p) ∧
    s'.view_matrix = s.rotation_matrix * s'.translation_matrix ∧
    s'.forward = s.forward ∧ s'.right = s.right ∧ s'.up = s.up ∧
    s'.axis = s.axis ∧ s'.rotation_matrix = s.rotation_matrix := by
  rw [LightAttitude.update_position_world_eq] at h
  simp only [Option.some.injEq] at h
  subst h
  exact ⟨rfl, rfl, rfl, rfl, rfl, rfl, rfl, rfl⟩

/-- C7 witness: the world-position override at a concrete state and point. -/
theorem C7_world_override_witness :
    attitude_c1_world.position = ⟨5, 6, 7⟩ ∧
    attitude_c1_world.translation_matrix
      = Matrix4x4.from_affine_translation (-(⟨5, 6, 7⟩ : Vector3)) ∧
    attitude_c1_world.view_matrix
      = attitude_c1.rotation_matrix * attitude_c1_world.translation_matrix ∧
    attitude_c1_world.forward = attitude_c1.forward ∧
    attitude_c1_world.right = attitude_c1.right ∧
    attitude_c1_world.up = attitude_c1.up ∧
    attitude_c1_world.axis = attitude_c1.axis ∧
    attitude_c1_world.rotation_matrix = attitude_c1.rotation_matrix :=
  C7_world_override world_c1_eval

/-- C8: from every state reachable from a spec with an orthonormal basis and
a nonzero rotation axis, both mutators succeed for every input: the `None`
branch of the three matrix inversions (`update_position_eye`,
`update_orientation_eye`, `update_position_world`) is unreachable, so no
call ever takes the modelled panic branch. -/
theorem C8_no_panic {spec : LightAttitudeSpec} {n : ℕ} {s : LightAttitude}
    (h1 : spec.orthonormal) (h2 : spec.axis ≠ ⟨0, 0, 0⟩)
    (hr : ReachN spec n s) (δ : DeltaAttitude) (p : Vector3) :
    (LightAttitude.update s δ).isSome = true ∧
    (LightAttitude.update_position_world s p).isSome = true := by
  obtain ⟨hb, hax, -⟩ := reach_inv h1 h2 hr
  constructor
  · have hna : Quaternion.normSq (LightAttitude.new_axis s δ) ≠ 0 := by
      rw [new_axis_normSq s δ hb]
      exact hax
    obtain ⟨s1, ho⟩ := LightAttitude.update_orientation_eye_isSome s δ hna
    have : LightAttitude.update s δ = some { { s1 with
        position := LightAttitude.new_position_eye s1 δ,
        translation_matrix := Matrix4x4.from_affine_translation
          (-(LightAttitude.new_position_eye s1 δ)) } with
        view_matrix := s1.rotation_matrix
          * Matrix4x4.from_affine_translation
            (-(LightAttitude.new_position_eye s1 δ)) } := by
      rw [LightAttitude.update_some_iff]
      exact ⟨s1, _, ho, LightAttitude.update_position_eye_eq s1 δ, rfl⟩
    rw [this]
    rfl
  · rw [LightAttitude.update_position_world_eq]
    rfl

/-- C8 witness: both mutators succeed at the constructed state. -/
theorem C8_no_panic_witness :
    (LightAttitude.update (LightAttitude.from_spec spec_c)
      DeltaAttitude.zero).isSome = true ∧
    (LightAttitude.update_position_world (LightAttitude.from_spec spec_c)
      ⟨5, 6, 7⟩).isSome = true :=
  C8_no_panic
    (by norm_num [LightAttitudeSpec.orthonormal, spec_c, Vector3.dot])
    (by simp [spec_c, Vector3.mk.injEq])
    ReachN.base DeltaAttitude.zero ⟨5, 6, 7⟩

/-- C9: the two mutators of the Light facade change only the attitude: the
illumination model field of the result is the model field of the input. -/
theorem C9_model_preserved {M : Type} {l l1 l2 : Light M}
    {δ : DeltaAttitude} {p : Vector3}
    (h1 : Light.update_attitude_eye l δ = some l1)
    (h2 : Light.update_position_world l p = some l2) :
    l1.model = l.model ∧ l2.model = l.model := by
  unfold Light.update_attitude_eye at h1
  unfold Light.update_position_world at h2
  rcases Option.map_eq_some'.mp h1 with ⟨a, -, rfl⟩
  rcases Option.map_eq_some'.mp h2 with ⟨b, -, rfl⟩
  exact ⟨rfl, rfl⟩

/-- C9 witness: a concrete light whose model field (the number 37) survives
both mutators. -/
theorem C9_model_preserved_witness :
    (Light.mk 37 attitude_c1 : Light ℕ).model
      = (Light.mk 37 (LightAttitude.from_spec spec_c) : Light ℕ).model ∧
    (Light.mk 37 attitude_c0_world : Light ℕ).model
      = (Light.mk 37 (LightAttitude.from_spec spec_c) : Light ℕ).model :=
  C9_model_preserved
    (by unfold Light.update_attitude_eye
        rw [update_c_eval]
        rfl)
    (by unfold Light.update_position_world
        rw [from_spec_c_eval, world_c0_eval]
        rfl)

/-- C10: the construction path computes the translation matrix as the
translation by `-position`, and both update paths compute it as the inverse
of the translation by `position`; the two agree exactly for every position,
and consequently every reachable state's cached translation matrix is the
translation by the negation of its current position. -/
theorem C10_translation_paths :
    (∀ p : Vector3, Matrix4x4.inverse (Matrix4x4.from_affine_translation p)
        = some (Matrix4x4.from_affine_translation (-p))) ∧
    (∀ (spec : LightAttitudeSpec) (n : ℕ) (s : LightAttitude),
      ReachN spec n s →
        s.translation_matrix
          = Matrix4x4.from_affine_translation (-s.position)) := by
  refine ⟨Matrix4x4.inverse_from_affine_translation, fun spec n s hr => ?_⟩
  induction hr with
  | base => rfl
  | step_update hprev hup ih =>
      rcases LightAttitude.update_some_iff.mp hup with ⟨s1, s2, -, hp, rfl⟩
      rw [LightAttitude.update_position_eye_eq] at hp
      simp only [Option.some.injEq] at hp
      subst hp
      rfl
  | step_world hprev hw ih =>
      rw [LightAttitude.update_position_world_eq] at hw
      simp only [Option.some.injEq] at hw
      subst hw
      rfl

/-- C10 witness: the path agreement at a concrete position and the invariant
at a concrete reachable state. -/
theorem C10_translation_paths_witness :
    Matrix4x4.inverse (Matrix4x4.from_affine_translation ⟨3, 4, 5⟩)
      = some (Matrix4x4.from_affine_translation (-(⟨3, 4, 5⟩ : Vector3))) ∧
    (LightAttitude.from_spec spec_c).translation_matrix
      = Matrix4x4.from_affine_translation
          (-(LightAttitude.from_spec spec_c).position) :=
  ⟨C10_translation_paths.1 ⟨3, 4, 5⟩,
   C10_translation_paths.2 spec_c 0 _ ReachN.base⟩

end Cgi
